import Mathlib

/-!
# Verification of the payment-reconciliation engine of sui-tg-whale-bot

Shallow embedding of the boost-order payment engine: the data model
(`BoostOrder`, prisma schema), the ledger observer (`getLastIncomingTx`,
`src/lib/sui.ts`), the settlement executor (`sendSui`), and the coordinator
(`finalStep`, `refund`, `forward` in `src/steps/final-step.ts`).

Modelling conventions:
* SUI amounts are rationals (the TypeScript code uses IEEE doubles obtained
  from exact decimal literals and a division by `MIST_PER_SUI = 10^9`; all
  the code ever does with amounts is compare them, and every constant in
  the repository is exactly representable, so `ℚ` preserves every
  comparison the code performs).
* Timestamps are integers (milliseconds since epoch, as `Date.now()`).
* The database record is passed and returned explicitly; `prisma.update`
  keyed on `paymentAddress` becomes a functional update of the record.
* The outcome of the one network broadcast a run may perform
  (`sendSui`) is an explicit boolean input `sweepOk` plus the digest
  string `sweepHash`, since it is decided by the external ledger.
-/

namespace SuiTgWhaleBot

/-- `enum PaymentStatus` of `prisma/schema.prisma`:
`PENDING | PROCESSING | CONFIRMED | EXPIRED`. -/
inductive PaymentStatus where
  | PENDING
  | PROCESSING
  | CONFIRMED
  | EXPIRED
  deriving DecidableEq, Repr

/-- `model BoostOrder` of `prisma/schema.prisma`, restricted to the fields
the payment engine reads or writes (`id`, `tokenAddress`, `tgUrl`,
`boostPackage` and the cosmetic editable fields are carried through
untouched by every function modelled here and are omitted). -/
structure BoostOrder where
  paymentAddress : String
  paymentPrivateKey : String
  priceSui : ℚ
  boostDurationHours : ℕ
  paymentStatus : PaymentStatus
  paymentTransactionHash : Option String
  refundTransactionHash : Option String
  refundAddress : Option String
  boostStartedAt : Option ℤ
  boostEndsAt : Option ℤ
  createdAt : ℤ
  deriving DecidableEq, Repr

/-- `interface IncomingTransactionDetails` of `src/lib/types.ts`. -/
structure IncomingTransactionDetails where
  sender : String
  amountInSui : ℚ
  transactionHash : String
  deriving DecidableEq, Repr

/-- `ORDER_EXPIRATION_IN_MS = 10 * 60 * 1000` (`src/lib/constants.ts`). -/
def ORDER_EXPIRATION_IN_MS : ℤ := 10 * 60 * 1000

/-- `MINIMUM_BALANCE_FOR_GAS = 0.0035` (`src/lib/constants.ts`). -/
def MINIMUM_BALANCE_FOR_GAS : ℚ := 35 / 10000

/-- `MASTER_WALLET = process.env.MASTER_WALLET!` (`src/lib/constants.ts`):
an operator-supplied address, modelled as an opaque distinguished string. -/
def MASTER_WALLET : String := "MASTER_WALLET"

/-! ## The payment classifier

`finalStep` together with the guard at the top of `refund`
(`src/steps/final-step.ts`) determines, from the observed transfer, the
price, and the time since creation, which settlement action runs.  We
extract that decision as a pure function, parameterised by the payment
window and the gas floor (the code instantiates them with
`ORDER_EXPIRATION_IN_MS` and `MINIMUM_BALANCE_FOR_GAS`). -/

/-- The verdicts of spec §4.3 (with `NO_ACTION` for the fall-through of
`finalStep` in which a present in-window transfer satisfies neither
`0 < amount ∧ amount < price` nor `amount ≥ price`; unreachable for
transfers produced by `getLastIncomingTx`, whose amounts are positive). -/
inductive Verdict where
  | WAIT
  | REFUND_EXPIRED_WITH_PAYMENT
  | REFUND_TOO_SMALL
  | REFUND_INSUFFICIENT
  | FORWARD
  | NO_ACTION
  deriving DecidableEq, Repr

/-- The guard at the top of `refund` (final-step.ts line 2713): an amount at
or below the gas floor is not refunded (`REFUND_TOO_SMALL`); otherwise the
refund proceeds with the verdict of the calling site. -/
def refundVerdict (amount gasFloor : ℚ) (callerVerdict : Verdict) : Verdict :=
  if amount ≤ gasFloor then .REFUND_TOO_SMALL else callerVerdict

/-- The decision structure of `finalStep` (final-step.ts lines 2823-2871):
first the expired-with-transaction branch, then the no-transaction branch,
then the insufficient branch (`0 < amount ∧ amount < price`, which calls
`refund`), then the sufficient branch (`amount ≥ price`, which calls
`forward`).  Both refund call sites pass through the `refund` gas-floor
guard, so the effective verdict is `refundVerdict` of the caller verdict. -/
def classify (transfer : Option IncomingTransactionDetails) (requiredAmount : ℚ)
    (elapsed paymentWindow : ℤ) (gasFloor : ℚ) : Verdict :=
  match transfer with
  | some t =>
    if elapsed > paymentWindow then
      refundVerdict t.amountInSui gasFloor .REFUND_EXPIRED_WITH_PAYMENT
    else if 0 < t.amountInSui ∧ t.amountInSui < requiredAmount then
      refundVerdict t.amountInSui gasFloor .REFUND_INSUFFICIENT
    else if t.amountInSui ≥ requiredAmount then
      .FORWARD
    else
      .NO_ACTION
  | none => .WAIT

/-- The classifier table exactly as spec §4.3 words it, first match wins:
1. transfer present and `elapsed > paymentWindow` → `REFUND_EXPIRED_WITH_PAYMENT`;
2. transfer absent → `WAIT`;
3. `amount ≤ gasFloor` → `REFUND_TOO_SMALL`;
4. `amount < requiredAmount` → `REFUND_INSUFFICIENT`;
5. `amount ≥ requiredAmount` → `FORWARD`. -/
def classifySpecTable (transfer : Option IncomingTransactionDetails) (requiredAmount : ℚ)
    (elapsed paymentWindow : ℤ) (gasFloor : ℚ) : Verdict :=
  match transfer with
  | some t =>
    if elapsed > paymentWindow then .REFUND_EXPIRED_WITH_PAYMENT
    else if t.amountInSui ≤ gasFloor then .REFUND_TOO_SMALL
    else if t.amountInSui < requiredAmount then .REFUND_INSUFFICIENT
    else .FORWARD
  | none => .WAIT

/-- The table the code actually implements, written flat with first match
wins: the gas-floor rule is nested inside the refund action, so it fires
only on a refund path, and a sufficient in-window amount is forwarded even
when it is at or below the gas floor. -/
def classifyCodeTable (transfer : Option IncomingTransactionDetails) (requiredAmount : ℚ)
    (elapsed paymentWindow : ℤ) (gasFloor : ℚ) : Verdict :=
  match transfer with
  | none => .WAIT
  | some t =>
    if elapsed > paymentWindow ∧ t.amountInSui ≤ gasFloor then .REFUND_TOO_SMALL
    else if elapsed > paymentWindow then .REFUND_EXPIRED_WITH_PAYMENT
    else if 0 < t.amountInSui ∧ t.amountInSui < requiredAmount ∧ t.amountInSui ≤ gasFloor then
      .REFUND_TOO_SMALL
    else if 0 < t.amountInSui ∧ t.amountInSui < requiredAmount then .REFUND_INSUFFICIENT
    else if t.amountInSui ≥ requiredAmount then .FORWARD
    else .NO_ACTION

/-! ## The ledger observer

`getIncomingTransactions` and `getLastIncomingTx` of `src/lib/sui.ts`.
The RPC response list (`queryTransactionBlocks` with `ToAddress` filter,
`order: "descending"`, i.e. newest first) is the explicit input. -/

/-- One entry of `SuiTransactionBlockResponse.balanceChanges`.  The code
keeps a change only when `typeof change.owner === "object"` and
`"AddressOwner" in change.owner`; we model that shape test as
`ownerAddress : Option String` (`none` for `Immutable`/`Shared`/object
owners).  `amount` is in MIST, as the decimal string parsed by `BigInt`. -/
structure BalanceChange where
  ownerAddress : Option String
  coinType : String
  amount : ℤ
  deriving DecidableEq, Repr

/-- The slice of `SuiTransactionBlockResponse` the code reads:
`transaction?.data.sender` (optional), `digest`, and the optional
`balanceChanges` list. -/
structure SuiTransactionBlockResponse where
  sender : Option String
  digest : String
  balanceChanges : Option (List BalanceChange)
  deriving DecidableEq, Repr

/-- `MIST_PER_SUI` of `@mysten/sui/utils`: `10^9` MIST per SUI. -/
def MIST_PER_SUI : ℤ := 1000000000

/-- The predicate of the `find` call in `getLastIncomingTx` (sui.ts lines
2589-2596): the change is owned by the recipient address, is of coin type
`0x2::sui::SUI`, and has strictly positive amount. -/
def isRecipientSuiChange (recipientAddress : String) (change : BalanceChange) : Bool :=
  change.ownerAddress == some recipientAddress &&
    change.coinType == "0x2::sui::SUI" &&
    decide (0 < change.amount)

/-- `getLastIncomingTx` (sui.ts lines 2569-2615) applied to the response
list of `getIncomingTransactions` (newest first).  The code inspects only
`transactions[0]`: it returns `null` on an empty list, a missing sender or
missing `balanceChanges` on the head, or no qualifying balance change in
the head; otherwise it returns sender, the MIST amount scaled to SUI, and
the head digest. -/
def getLastIncomingTx (recipientAddress : String)
    (transactions : List SuiTransactionBlockResponse) :
    Option IncomingTransactionDetails :=
  match transactions with
  | [] => none
  | mostRecentTx :: _ =>
    match mostRecentTx.sender, mostRecentTx.balanceChanges with
    | some sender, some changes =>
      match changes.find? (isRecipientSuiChange recipientAddress) with
      | some recipientBalanceChange =>
        some { sender := sender,
               amountInSui := (recipientBalanceChange.amount : ℚ) / (MIST_PER_SUI : ℚ),
               transactionHash := mostRecentTx.digest }
      | none => none
    | _, _ => none

/-- A transaction that qualifies in the sense of spec §4.2: it has a
sender and a strictly positive SUI balance change to the recipient. -/
def txHasQualifyingChange (recipientAddress : String)
    (tx : SuiTransactionBlockResponse) : Bool :=
  tx.sender.isSome &&
    (match tx.balanceChanges with
     | some changes => changes.any (isRecipientSuiChange recipientAddress)
     | none => false)

/-- Modelled from the spec wording of §4.2 (`latestIncomingTransfer`):
scan the newest-first list for the most recent transaction with a
qualifying change, not just the head. -/
def latestIncomingTransferSpec (recipientAddress : String)
    (transactions : List SuiTransactionBlockResponse) :
    Option IncomingTransactionDetails :=
  match transactions.find? (txHasQualifyingChange recipientAddress) with
  | none => none
  | some tx => getLastIncomingTx recipientAddress [tx]

/-- `getLastIncomingTx` with the surrounding `try`/`catch` (sui.ts lines
2572, 2611-2614): any error thrown by the RPC query is caught and turned
into `null`, the same value as the no-qualifying-transfer outcome.  The
RPC result is an `Except`: `.error` for a thrown network/RPC error,
`.ok` for a delivered response list. -/
def getLastIncomingTxResult (recipientAddress : String)
    (rpc : Except String (List SuiTransactionBlockResponse)) :
    Option IncomingTransactionDetails :=
  match rpc with
  | .error _ => none
  | .ok transactions => getLastIncomingTx recipientAddress transactions

/-! ## The settlement executor

`sendSui` (sui.ts lines 2521-2567): load the wallet from the stored
private key, build a transaction `tx.transferObjects([tx.gas],
recipientAddress)` — the Sui idiom that transfers the whole gas coin,
i.e. the entire balance of the sending address — sign with the loaded
keypair and broadcast.  We model its effect on a ledger of balances. -/

/-- The effect of a successful `sendSui` broadcast on the ledger, given
the key-to-address derivation `addrOfKey` performed by `loadWallet`:
`tx.transferObjects([tx.gas], recipientAddress)` moves the entire balance
of the sending address to the recipient (no partial amount appears
anywhere in `sendSui`; it has no amount parameter). -/
def sendSuiLedger (addrOfKey : String → String)
    (privateKeyString recipientAddress : String) (bal : String → ℚ) : String → ℚ :=
  let fromAddr := addrOfKey privateKeyString
  fun a =>
    if fromAddr = recipientAddress then bal a
    else if a = recipientAddress then bal a + bal fromAddr
    else if a = fromAddr then 0
    else bal a

/-! ## The coordinator: `finalStep`, `refund`, `forward`

`src/steps/final-step.ts`.  The Telegram-context plumbing
(`ctx.reply`, `answerCbQuery`, `scene.leave`, the `start_boosting`
callback guard) is presentation glue; the engine state is the
`BoostOrder` record, threaded explicitly.  The one broadcast a run may
attempt is represented by its externally decided result: `sweepOk`
(did `sendSui` report `success`) and `sweepHash` (the digest). -/

/-- The user-visible outcome of one `check`, spec §6 (each constructor is
one reply of final-step.ts). -/
inductive Outcome where
  | NotFound
  | AlreadyProcessed
  | PaymentNotDetected
  | Confirmed
  | RefundedInsufficient
  | RefundedExpired
  | TooSmallToRefund
  | RefundFailed
  | ForwardFailed
  | NoAction
  deriving DecidableEq, Repr

/-- The result of one `check` run: the stored order after the run, the
outcome reported to the user, and the list of `sendSui` invocations made,
each recorded as (private key signed with, destination address). -/
structure CheckResult where
  order : BoostOrder
  outcome : Outcome
  sweeps : List (String × String)
  deriving DecidableEq, Repr

/-- `refund` (final-step.ts lines 2707-2750).  Guard: an amount at or
below `MINIMUM_BALANCE_FOR_GAS` sends nothing and only marks the order
EXPIRED.  Otherwise `sendSui(order.paymentPrivateKey, transaction.sender)`
is invoked; on failure the code replies FAILED TO REFUND and leaves — the
order keeps whatever status it had (its caller has just written
PROCESSING); on success the order is marked EXPIRED.  Only
`paymentStatus` is ever written; `refundTransactionHash` and
`refundAddress` are not touched. -/
def refund (order : BoostOrder) (transaction : IncomingTransactionDetails)
    (sweepOk : Bool) (okOutcome : Outcome) : CheckResult :=
  if transaction.amountInSui ≤ MINIMUM_BALANCE_FOR_GAS then
    { order := { order with paymentStatus := .EXPIRED },
      outcome := .TooSmallToRefund, sweeps := [] }
  else if sweepOk then
    { order := { order with paymentStatus := .EXPIRED },
      outcome := okOutcome,
      sweeps := [(order.paymentPrivateKey, transaction.sender)] }
  else
    { order := order, outcome := .RefundFailed,
      sweeps := [(order.paymentPrivateKey, transaction.sender)] }

/-- `forward` (final-step.ts lines 2752-2794):
`sendSui(order.paymentPrivateKey, MASTER_WALLET)`; on failure the order is
marked EXPIRED; on success the order is marked CONFIRMED with
`boostStartedAt = new Date()`, `boostEndsAt = Date.now() +
boostDurationHours * 60 * 60 * 1000` and `paymentTransactionHash` set to
the digest (the two clock reads happen in the same statement and are
modelled by the single instant `now`). -/
def forward (order : BoostOrder) (now : ℤ) (sweepOk : Bool) (sweepHash : String) :
    CheckResult :=
  if sweepOk then
    { order := { order with
        paymentStatus := .CONFIRMED,
        boostStartedAt := some now,
        boostEndsAt := some (now + (order.boostDurationHours : ℤ) * 60 * 60 * 1000),
        paymentTransactionHash := some sweepHash },
      outcome := .Confirmed,
      sweeps := [(order.paymentPrivateKey, MASTER_WALLET)] }
  else
    { order := { order with paymentStatus := .EXPIRED },
      outcome := .ForwardFailed,
      sweeps := [(order.paymentPrivateKey, MASTER_WALLET)] }

/-- `finalStep` (final-step.ts lines 2796-2875) for an order that was
found in the store (`getBoostOrderByPaymentAddress` returned it;
the not-found branch replies ORDER NOT FOUND and performs no store write).
In source order: the `paymentStatus !== "PENDING"` short-circuit; then
`getLastIncomingTx` (its result is the input `transaction`); the
expired-with-transaction branch, which writes PROCESSING and refunds; the
no-transaction branch, which replies PAYMENT NOT DETECTED and leaves the
order untouched; otherwise PROCESSING is written unconditionally
(`updateBoostOrder` is a plain update keyed on `paymentAddress`, not a
compare-and-set), then the insufficient branch
(`0 < amount ∧ amount < priceSui`) refunds and the sufficient branch
(`amount ≥ priceSui`) forwards; if neither fires the run ends with the
order left PROCESSING. -/
def finalStep (order : BoostOrder) (transaction : Option IncomingTransactionDetails)
    (now : ℤ) (sweepOk : Bool) (sweepHash : String) : CheckResult :=
  if order.paymentStatus ≠ .PENDING then
    { order := order, outcome := .AlreadyProcessed, sweeps := [] }
  else
    match transaction with
    | some t =>
      if now - order.createdAt > ORDER_EXPIRATION_IN_MS then
        refund { order with paymentStatus := .PROCESSING } t sweepOk .RefundedExpired
      else if 0 < t.amountInSui ∧ t.amountInSui < order.priceSui then
        refund { order with paymentStatus := .PROCESSING } t sweepOk .RefundedInsufficient
      else if t.amountInSui ≥ order.priceSui then
        forward { order with paymentStatus := .PROCESSING } now sweepOk sweepHash
      else
        { order := { order with paymentStatus := .PROCESSING },
          outcome := .NoAction, sweeps := [] }
    | none =>
      { order := order, outcome := .PaymentNotDetected, sweeps := [] }

/-- The ledger after a `check` run: a successful broadcast applies
`sendSuiLedger` for each recorded invocation (a run makes at most one);
a failed or absent broadcast leaves balances unchanged. -/
def ledgerAfter (addrOfKey : String → String) (r : CheckResult) (sweepOk : Bool)
    (bal : String → ℚ) : String → ℚ :=
  if sweepOk then
    r.sweeps.foldl (fun b s => sendSuiLedger addrOfKey s.1 s.2 b) bal
  else bal

/-- The externally supplied inputs of one `check` invocation: the observed
transfer, the clock, and the broadcast result. -/
structure CheckInput where
  transaction : Option IncomingTransactionDetails
  now : ℤ
  sweepOk : Bool
  sweepHash : String
  deriving Repr

/-- A serialized sequence of `check` invocations on one stored order:
each run completes (its store writes land) before the next begins.
Returns the final stored order and the total number of `sendSui`
invocations across the sequence. -/
def runChecks (order : BoostOrder) : List CheckInput → BoostOrder × ℕ
  | [] => (order, 0)
  | i :: is =>
    let r := finalStep order i.transaction i.now i.sweepOk i.sweepHash
    let rest := runChecks r.order is
    (rest.1, r.sweeps.length + rest.2)

/-! ## Wallet provisioning: `createWallet` and `loadWallet`

`src/lib/sui.ts`.  The cryptographic primitives live in the external
`@mysten/sui` SDK, so they enter the model as parameters: Ed25519 public
key derivation, the Sui address hash of a public key, and the
`suiprivkey` bech32 encoding with its decoder (`decodeSuiPrivateKey`),
whose round-trip law is the SDK's documented contract. -/

/-- The `@mysten/sui` keypair primitives used by `src/lib/sui.ts`, with
raw Ed25519 secret keys modelled as `Nat`.  `decodeKey` is
`decodeSuiPrivateKey`, `encodeKey` is `Ed25519Keypair.getSecretKey` (the
`suiprivkey1...` string), `derivePublicKey` is secret-to-public
derivation and `publicKeyToSuiAddress` is `PublicKey.toSuiAddress`.
`decode_encode` is the SDK contract that decoding an encoded key returns
the raw key. -/
structure SuiKeypairSDK where
  encodeKey : ℕ → String
  decodeKey : String → ℕ
  derivePublicKey : ℕ → ℕ
  publicKeyToSuiAddress : ℕ → String
  decode_encode : ∀ k, decodeKey (encodeKey k) = k

/-- The record returned by both `loadWallet` and `createWallet`
(public key kept as the raw model value; the code base64-encodes it but
never reads it back). -/
structure WalletInfo where
  privateKey : String
  publicKey : ℕ
  address : String
  deriving DecidableEq, Repr

/-- `loadWallet` (sui.ts lines 2469-2486): decode the `suiprivkey1...`
string, rebuild the keypair from the raw secret key, and derive the
public key and Sui address from it; the returned `privateKey` is the
input string unchanged. -/
def loadWallet (sdk : SuiKeypairSDK) (privateKeyString : String) : WalletInfo :=
  let secretKey := sdk.decodeKey privateKeyString
  { privateKey := privateKeyString,
    publicKey := sdk.derivePublicKey secretKey,
    address := sdk.publicKeyToSuiAddress (sdk.derivePublicKey secretKey) }

/-- `createWallet` (sui.ts lines 2508-2519): generate a fresh keypair
(the fresh randomness is the input `freshSecret`), export the secret key
in encoded form, and derive the public key and address. -/
def createWallet (sdk : SuiKeypairSDK) (freshSecret : ℕ) : WalletInfo :=
  { privateKey := sdk.encodeKey freshSecret,
    publicKey := sdk.derivePublicKey freshSecret,
    address := sdk.publicKeyToSuiAddress (sdk.derivePublicKey freshSecret) }

/-! ## Order creation: `paymentStep`

`src/steps/payment-step.ts` lines 2973-3003: on a duration callback it
creates a wallet and persists a new `BoostOrder` with
`paymentAddress = wallet.address`, `paymentPrivateKey = wallet.privateKey`,
`paymentStatus = "PENDING"`.  The schema defaults leave
`paymentTransactionHash`, `refundTransactionHash`, `refundAddress`,
`boostStartedAt` and `boostEndsAt` null and `createdAt = now()`. -/

/-- The `BoostOrder` row created by `createBoostOrder` in `paymentStep`
(engine-relevant fields). -/
def newBoostOrder (priceSui : ℚ) (boostDurationHours : ℕ)
    (paymentAddress paymentPrivateKey : String) (now : ℤ) : BoostOrder :=
  { paymentAddress := paymentAddress,
    paymentPrivateKey := paymentPrivateKey,
    priceSui := priceSui,
    boostDurationHours := boostDurationHours,
    paymentStatus := .PENDING,
    paymentTransactionHash := none,
    refundTransactionHash := none,
    refundAddress := none,
    boostStartedAt := none,
    boostEndsAt := none,
    createdAt := now }

/-- `paymentStep`: the order persisted for a fresh wallet. -/
def paymentStepOrder (sdk : SuiKeypairSDK) (freshSecret : ℕ) (priceSui : ℚ)
    (boostDurationHours : ℕ) (now : ℤ) : BoostOrder :=
  let wallet := createWallet sdk freshSecret
  newBoostOrder priceSui boostDurationHours wallet.address wallet.privateKey now

/-! ## Concurrent `check` invocations

`finalStep` suspends at each `await`; between the read of the order and
the later `updateBoostOrder(paymentAddress, { paymentStatus:
"PROCESSING" })` (a plain `prisma.update` keyed on `paymentAddress`,
with no condition on the stored status) another invocation can run.  We
model one invocation by its atomic interactions with the stored status,
in source order: read-and-test, unconditional PROCESSING write, then the
settlement action with its terminal write. -/

/-- Progress of one concurrent `finalStep` invocation through its store
interactions (for a run whose observed transfer is in-window and
sufficient, the settlement action being the `forward` sweep). -/
inductive InvPhase where
  | ready
  | passedPendingTest
  | wrotePROCESSING
  | finished
  deriving DecidableEq, Repr

/-- One invocation: its phase and how many `sendSui` settlement calls it
has made. -/
structure InvState where
  phase : InvPhase
  sweepCount : ℕ
  deriving DecidableEq, Repr

/-- One atomic store interaction of an invocation, given the stored
status: `ready` reads the order and applies the `paymentStatus !==
"PENDING"` test (short-circuiting to `finished` with no settlement when
it fails); `passedPendingTest` performs `updateBoostOrder(...,
PROCESSING)`, which writes PROCESSING whatever the stored status is;
`wrotePROCESSING` invokes the settlement sweep and writes the terminal
status. -/
def stepInv (status : PaymentStatus) (s : InvState) : PaymentStatus × InvState :=
  match s.phase with
  | .ready =>
    if status = .PENDING then (status, { s with phase := .passedPendingTest })
    else (status, { s with phase := .finished })
  | .passedPendingTest => (.PROCESSING, { s with phase := .wrotePROCESSING })
  | .wrotePROCESSING =>
    (.CONFIRMED, { phase := .finished, sweepCount := s.sweepCount + 1 })
  | .finished => (status, s)

/-- Two concurrent invocations A and B over the one stored order. -/
structure ConcState where
  status : PaymentStatus
  a : InvState
  b : InvState
  deriving DecidableEq, Repr

/-- Advance invocation A (when `who` is true) or B by one atomic store
interaction. -/
def stepConc (who : Bool) (s : ConcState) : ConcState :=
  if who then
    let r := stepInv s.status s.a
    { s with status := r.1, a := r.2 }
  else
    let r := stepInv s.status s.b
    { s with status := r.1, b := r.2 }

/-- Run an explicit interleaving schedule. -/
def runConc (schedule : List Bool) (s : ConcState) : ConcState :=
  schedule.foldl (fun st who => stepConc who st) s

/-- Both invocations at the start, on a PENDING order. -/
def concInit : ConcState :=
  { status := .PENDING,
    a := { phase := .ready, sweepCount := 0 },
    b := { phase := .ready, sweepCount := 0 } }

/-! ## Status rank and helper lemmas -/

/-- Position of a status along `PENDING → PROCESSING → {CONFIRMED,
EXPIRED}` (the two terminal states share the final rank). -/
def statusRank : PaymentStatus → ℕ
  | .PENDING => 0
  | .PROCESSING => 1
  | .CONFIRMED => 2
  | .EXPIRED => 2

/-- The two terminal states. -/
def isTerminal (s : PaymentStatus) : Bool :=
  s == .CONFIRMED || s == .EXPIRED

theorem finalStep_nonpending (o : BoostOrder) (t : Option IncomingTransactionDetails)
    (now : ℤ) (ok : Bool) (hash : String) (h : o.paymentStatus ≠ .PENDING) :
    finalStep o t now ok hash =
      { order := o, outcome := .AlreadyProcessed, sweeps := [] } := by
  simp [finalStep, h]

theorem runChecks_nonpending (o : BoostOrder) (inputs : List CheckInput)
    (h : o.paymentStatus ≠ .PENDING) :
    runChecks o inputs = (o, 0) := by
  induction inputs with
  | nil => rfl
  | cons i is ih =>
    simp [runChecks, finalStep_nonpending o i.transaction i.now i.sweepOk i.sweepHash h, ih]

theorem refund_sweeps_length (o : BoostOrder) (t : IncomingTransactionDetails)
    (ok : Bool) (v : Outcome) : (refund o t ok v).sweeps.length ≤ 1 := by
  unfold refund
  split_ifs <;> simp

theorem forward_sweeps_length (o : BoostOrder) (now : ℤ) (ok : Bool) (hash : String) :
    (forward o now ok hash).sweeps.length ≤ 1 := by
  unfold forward
  split_ifs <;> simp

theorem finalStep_sweeps_length (o : BoostOrder) (t : Option IncomingTransactionDetails)
    (now : ℤ) (ok : Bool) (hash : String) :
    (finalStep o t now ok hash).sweeps.length ≤ 1 := by
  unfold finalStep
  by_cases hp : o.paymentStatus = .PENDING
  · cases t with
    | none => simp [hp]
    | some tt =>
      simp only [hp, ne_eq, not_true_eq_false, if_false]
      split_ifs <;>
        first
          | exact refund_sweeps_length _ _ _ _
          | exact forward_sweeps_length _ _ _ _
          | simp
  · simp [hp]

theorem refund_status_ne_pending (o : BoostOrder) (t : IncomingTransactionDetails)
    (ok : Bool) (v : Outcome) (h : o.paymentStatus ≠ .PENDING) :
    (refund o t ok v).order.paymentStatus ≠ .PENDING := by
  unfold refund
  split_ifs <;> simp_all

theorem forward_status_ne_pending (o : BoostOrder) (now : ℤ) (ok : Bool) (hash : String) :
    (forward o now ok hash).order.paymentStatus ≠ .PENDING := by
  unfold forward
  split_ifs <;> simp

theorem finalStep_sweeps_ne_nil_status (o : BoostOrder)
    (t : Option IncomingTransactionDetails) (now : ℤ) (ok : Bool) (hash : String)
    (hs : (finalStep o t now ok hash).sweeps ≠ []) :
    (finalStep o t now ok hash).order.paymentStatus ≠ .PENDING := by
  unfold finalStep at hs ⊢
  by_cases hp : o.paymentStatus = .PENDING
  · cases t with
    | none => simp [hp] at hs
    | some tt =>
      simp only [hp, ne_eq, not_true_eq_false, if_false] at hs ⊢
      split_ifs <;>
        first
          | exact refund_status_ne_pending _ _ _ _ (by simp)
          | exact forward_status_ne_pending _ _ _ _
          | simp
  · simp [hp] at hs

/-! ## Claim C1 -/

/-- C1 counterexample: the PENDING→PROCESSING write of `finalStep`
(`updateBoostOrder(paymentAddress, { paymentStatus: "PROCESSING" })`) is
not an atomic compare-and-set — it overwrites any stored status, shown by
the second conjunct — and under the explicit interleaving A-read, B-read,
A-write, A-settle, B-write, B-settle of two concurrent `check`
invocations on one PENDING order, both invocations execute a settlement
action: the settlement executor runs twice, not at most once. -/
theorem conditional_write_not_cas_counterexample :
    (runConc [true, false, true, true, false, false] concInit).a.sweepCount +
        (runConc [true, false, true, true, false, false] concInit).b.sweepCount = 2 ∧
    (stepInv .EXPIRED { phase := .passedPendingTest, sweepCount := 0 }).1 =
      .PROCESSING := by
  decide

/-- C1 (amended): the PENDING→PROCESSING transition is a plain read of
the status followed later by an unconditional update, not a
compare-and-set; consequently exactly-once settlement holds only for
serialized `check` invocations: across any sequence of completed `check`
runs on one order, `sendSui` is invoked for a settlement at most once. -/
theorem check_settlement_at_most_once_serialized (o : BoostOrder)
    (inputs : List CheckInput) : (runChecks o inputs).2 ≤ 1 := by
  induction inputs generalizing o with
  | nil => simp [runChecks]
  | cons i is ih =>
    by_cases hs : (finalStep o i.transaction i.now i.sweepOk i.sweepHash).sweeps = []
    · have h0 : (finalStep o i.transaction i.now i.sweepOk i.sweepHash).sweeps.length = 0 := by
        simp [hs]
      simpa [runChecks, h0] using ih (finalStep o i.transaction i.now i.sweepOk i.sweepHash).order
    · have h2 := finalStep_sweeps_ne_nil_status o i.transaction i.now i.sweepOk i.sweepHash hs
      have h3 := runChecks_nonpending (finalStep o i.transaction i.now i.sweepOk i.sweepHash).order is h2
      have h4 := finalStep_sweeps_length o i.transaction i.now i.sweepOk i.sweepHash
      simp [runChecks, h3]
      omega

/-! ## Claim C2 -/

/-- C2 counterexample: with gas floor `0.0035` (the code's
`MINIMUM_BALANCE_FOR_GAS`), required amount `0.001` and an in-window
transfer of `0.002`, the spec table of §4.3 yields `REFUND_TOO_SMALL`
(rule 3 precedes rules 4-5), but the code forwards: the gas-floor rule is
never consulted on the sufficient path. -/
theorem classify_sufficient_below_gasfloor_counterexample :
    classify (some { sender := "s", amountInSui := 2 / 1000, transactionHash := "h" })
        (1 / 1000) 0 ORDER_EXPIRATION_IN_MS MINIMUM_BALANCE_FOR_GAS = .FORWARD ∧
    classifySpecTable (some { sender := "s", amountInSui := 2 / 1000, transactionHash := "h" })
        (1 / 1000) 0 ORDER_EXPIRATION_IN_MS MINIMUM_BALANCE_FOR_GAS = .REFUND_TOO_SMALL := by
  constructor
  · norm_num [classify, refundVerdict, ORDER_EXPIRATION_IN_MS, MINIMUM_BALANCE_FOR_GAS]
  · norm_num [classifySpecTable, ORDER_EXPIRATION_IN_MS, MINIMUM_BALANCE_FOR_GAS]

/-- C2 (amended): the verdict follows a first-match-wins table in which
the gas-floor rule is evaluated inside the refund action rather than
before the amount rules: (1) present and late and amount ≤ gasFloor →
REFUND_TOO_SMALL; (2) present and late → REFUND_EXPIRED_WITH_PAYMENT;
(3) absent → WAIT; (4) 0 < amount < required and amount ≤ gasFloor →
REFUND_TOO_SMALL (no refund transaction, order only marked terminal);
(5) 0 < amount < required → REFUND_INSUFFICIENT; (6) amount ≥ required →
FORWARD even when amount ≤ gasFloor; (7) otherwise no action. -/
theorem classify_eq_codeTable (transfer : Option IncomingTransactionDetails)
    (requiredAmount : ℚ) (elapsed paymentWindow : ℤ) (gasFloor : ℚ) :
    classify transfer requiredAmount elapsed paymentWindow gasFloor =
      classifyCodeTable transfer requiredAmount elapsed paymentWindow gasFloor := by
  cases transfer with
  | none => rfl
  | some t =>
    simp only [classify, classifyCodeTable, refundVerdict]
    by_cases h1 : elapsed > paymentWindow <;>
      by_cases h2 : t.amountInSui ≤ gasFloor <;>
        by_cases h3 : 0 < t.amountInSui ∧ t.amountInSui < requiredAmount <;>
          simp [h1, h2, h3]

/-! ## Claim C3 -/

/-- C3 counterexample: an order with price 0.5 and an in-window transfer
of 0.3 whose refund broadcast fails: the code replies FAILED TO REFUND
and leaves without any further store write, so the order is left
PROCESSING — not marked EXPIRED as the claim states. -/
theorem refund_failure_leaves_processing_counterexample :
    (finalStep (newBoostOrder (1 / 2) 4 "payAddr" "payKey" 0)
        (some { sender := "payer", amountInSui := 3 / 10, transactionHash := "t1" })
        0 false "d").order.paymentStatus = .PROCESSING ∧
    (finalStep (newBoostOrder (1 / 2) 4 "payAddr" "payKey" 0)
        (some { sender := "payer", amountInSui := 3 / 10, transactionHash := "t1" })
        0 false "d").outcome = .RefundFailed := by
  norm_num [finalStep, refund, newBoostOrder, ORDER_EXPIRATION_IN_MS,
    MINIMUM_BALANCE_FOR_GAS]

/-- C3 (amended): when the settlement broadcast fails, the forward path
marks the order EXPIRED and surfaces the fatal failed-to-send outcome,
but every refund path (expired or insufficient) surfaces the fatal
failed-to-refund outcome while leaving the order PROCESSING; in all
cases the failing run attempts exactly one broadcast — no automatic
retry. -/
theorem sweep_failure_fatal_status (o : BoostOrder) (t : IncomingTransactionDetails)
    (now : ℤ) (hash : String)
    (hp : o.paymentStatus = .PENDING)
    (hgas : MINIMUM_BALANCE_FOR_GAS < t.amountInSui) :
    ((now - o.createdAt > ORDER_EXPIRATION_IN_MS ∨
        (0 < t.amountInSui ∧ t.amountInSui < o.priceSui)) →
      (finalStep o (some t) now false hash).order.paymentStatus = .PROCESSING ∧
      (finalStep o (some t) now false hash).outcome = .RefundFailed ∧
      (finalStep o (some t) now false hash).sweeps.length = 1) ∧
    (now - o.createdAt ≤ ORDER_EXPIRATION_IN_MS → o.priceSui ≤ t.amountInSui →
      (finalStep o (some t) now false hash).order.paymentStatus = .EXPIRED ∧
      (finalStep o (some t) now false hash).outcome = .ForwardFailed ∧
      (finalStep o (some t) now false hash).sweeps.length = 1) := by
  have hng : ¬ t.amountInSui ≤ MINIMUM_BALANCE_FOR_GAS := not_le.mpr hgas
  constructor
  · rintro (hlate | hins)
    · simp [finalStep, refund, hp, hlate, hng]
    · by_cases hlate : now - o.createdAt > ORDER_EXPIRATION_IN_MS
      · simp [finalStep, refund, hp, hlate, hng]
      · simp [finalStep, refund, hp, hlate, hng, hins.1, hins.2]
  · intro hwin hsuf
    have hnl : ¬ now - o.createdAt > ORDER_EXPIRATION_IN_MS := not_lt.mpr hwin
    have hni : ¬ t.amountInSui < o.priceSui := not_lt.mpr hsuf
    simp [finalStep, forward, hp, hnl, hni, hsuf]

/-- C3 witness: the amended statement at concrete inputs — a failing
refund leaves the order PROCESSING, a failing forward marks it
EXPIRED. -/
theorem sweep_failure_fatal_status_witness :
    (finalStep (newBoostOrder (1 / 2) 4 "payAddr" "payKey" 0)
        (some { sender := "payer", amountInSui := 3 / 10, transactionHash := "t1" })
        0 false "d").outcome = .RefundFailed ∧
    (finalStep (newBoostOrder (1 / 2) 4 "payAddrB" "payKeyB" 0)
        (some { sender := "payerB", amountInSui := 1 / 2, transactionHash := "t2" })
        0 false "d").order.paymentStatus = .EXPIRED := by
  constructor
  · exact ((sweep_failure_fatal_status (newBoostOrder (1 / 2) 4 "payAddr" "payKey" 0)
      { sender := "payer", amountInSui := 3 / 10, transactionHash := "t1" } 0 "d"
      rfl (by norm_num [MINIMUM_BALANCE_FOR_GAS])).1
      (Or.inr (by norm_num [newBoostOrder]))).2.1
  · exact ((sweep_failure_fatal_status (newBoostOrder (1 / 2) 4 "payAddrB" "payKeyB" 0)
      { sender := "payerB", amountInSui := 1 / 2, transactionHash := "t2" } 0 "d"
      rfl (by norm_num [MINIMUM_BALANCE_FOR_GAS])).2
      (by norm_num [newBoostOrder, ORDER_EXPIRATION_IN_MS])
      (by norm_num [newBoostOrder])).1

/-! ## Claim C4 -/

/-- A newest transaction to `recv` with no qualifying balance change. -/
def txNoQualifying : SuiTransactionBlockResponse :=
  { sender := some "s0", digest := "d0", balanceChanges := some [] }

/-- A strictly positive SUI balance change owned by `recv`: 0.5 SUI. -/
def changeRecvHalfSui : BalanceChange :=
  { ownerAddress := some "recv", coinType := "0x2::sui::SUI", amount := 500000000 }

/-- An older transaction to `recv` carrying a qualifying change. -/
def txOlderQualifying : SuiTransactionBlockResponse :=
  { sender := some "s1", digest := "d1", balanceChanges := some [changeRecvHalfSui] }

/-- C4 counterexample: the newest transaction to the address has no
qualifying balance change while an older one does; `getLastIncomingTx`
returns `none` even though a qualifying transaction exists (the
spec-worded scan of the whole list finds it). -/
theorem getLastIncomingTx_skips_older_counterexample :
    getLastIncomingTx "recv" [txNoQualifying, txOlderQualifying] = none ∧
    (latestIncomingTransferSpec "recv" [txNoQualifying, txOlderQualifying]).isSome =
      true :=
  ⟨rfl, rfl⟩

/-- C4 (amended): `getLastIncomingTx` consults only the newest
transaction of the newest-first response: its result on `tx :: rest` is
its result on `[tx]` alone, it is `none` on an empty response, and it is
`some` precisely when that newest transaction itself has a sender,
balance changes, and a strictly positive SUI balance change to the
address — older qualifying transactions are never considered. -/
theorem getLastIncomingTx_head_only (recipientAddress : String)
    (tx : SuiTransactionBlockResponse) (rest : List SuiTransactionBlockResponse) :
    getLastIncomingTx recipientAddress (tx :: rest) =
      getLastIncomingTx recipientAddress [tx] ∧
    getLastIncomingTx recipientAddress [] = none ∧
    ((getLastIncomingTx recipientAddress (tx :: rest)).isSome ↔
      txHasQualifyingChange recipientAddress tx = true) := by
  refine ⟨rfl, rfl, ?_⟩
  cases hs : tx.sender with
  | none => simp [getLastIncomingTx, txHasQualifyingChange, hs]
  | some sender =>
    cases hb : tx.balanceChanges with
    | none => simp [getLastIncomingTx, txHasQualifyingChange, hs, hb]
    | some changes =>
      cases hf : changes.find? (isRecipientSuiChange recipientAddress) with
      | none =>
        have hany : changes.any (isRecipientSuiChange recipientAddress) = false := by
          rw [List.find?_eq_none] at hf
          simp only [List.any_eq_false]
          intro c hc
          exact hf c hc
        simp [getLastIncomingTx, txHasQualifyingChange, hs, hb, hf, hany]
      | some c =>
        have hmem := List.mem_of_find?_eq_some hf
        have hc := List.find?_some hf
        have hany : changes.any (isRecipientSuiChange recipientAddress) = true := by
          simp only [List.any_eq_true]
          exact ⟨c, hmem, hc⟩
        simp [getLastIncomingTx, txHasQualifyingChange, hs, hb, hf, hany]

/-! ## Claim C5 -/

/-- C5 counterexample: a transient RPC error is caught inside
`getLastIncomingTx` and becomes `null` — the very value returned when no
qualifying transfer exists yet.  The two outcomes are equal, so no
retryable signal distinguishable from the no-transfer outcome is
surfaced. -/
theorem ledger_error_indistinguishable_counterexample :
    getLastIncomingTxResult "recv" (Except.error "ECONNRESET") =
      getLastIncomingTxResult "recv" (Except.ok []) ∧
    getLastIncomingTxResult "recv" (Except.error "ECONNRESET") = none :=
  ⟨rfl, rfl⟩

/-- C5 (amended): on a transient ledger failure the observer swallows the
error and returns `none`; the check then reports PAYMENT NOT DETECTED and
leaves the PENDING order wholly unchanged with no settlement attempted,
so the call is safe to retry — but the failure is not distinguishable
from the ordinary no-transfer-observed outcome. -/
theorem ledger_error_swallowed_status_unchanged (e recipientAddress : String)
    (o : BoostOrder) (now : ℤ) (ok : Bool) (hash : String)
    (hp : o.paymentStatus = .PENDING) :
    getLastIncomingTxResult recipientAddress (Except.error e) = none ∧
    finalStep o none now ok hash =
      { order := o, outcome := .PaymentNotDetected, sweeps := [] } := by
  refine ⟨rfl, ?_⟩
  simp [finalStep, hp]

/-- C5 witness: the amended statement at a concrete PENDING order. -/
theorem ledger_error_swallowed_status_unchanged_witness :
    getLastIncomingTxResult "recv" (Except.error "timeout") = none ∧
    finalStep (newBoostOrder (1 / 2) 4 "payAddrC" "payKeyC" 0) none 5 true "d" =
      { order := newBoostOrder (1 / 2) 4 "payAddrC" "payKeyC" 0,
        outcome := .PaymentNotDetected, sweeps := [] } :=
  ledger_error_swallowed_status_unchanged "timeout" "recv"
    (newBoostOrder (1 / 2) 4 "payAddrC" "payKeyC" 0) 5 true "d" rfl

/-! ## Claim C6 -/

/-- C6 counterexample: the Scenario B run (price 0.5, in-window transfer
of 0.3, refund broadcast succeeds) refunds and marks the order EXPIRED,
but `refundTransactionHash` and `refundAddress` remain null: the refund
pair is not populated on the refund path. -/
theorem refund_fields_never_recorded_counterexample :
    (finalStep (newBoostOrder (1 / 2) 4 "payAddrD" "payKeyD" 0)
        (some { sender := "payerD", amountInSui := 3 / 10, transactionHash := "t4" })
        0 true "d").outcome = .RefundedInsufficient ∧
    (finalStep (newBoostOrder (1 / 2) 4 "payAddrD" "payKeyD" 0)
        (some { sender := "payerD", amountInSui := 3 / 10, transactionHash := "t4" })
        0 true "d").order.paymentStatus = .EXPIRED ∧
    (finalStep (newBoostOrder (1 / 2) 4 "payAddrD" "payKeyD" 0)
        (some { sender := "payerD", amountInSui := 3 / 10, transactionHash := "t4" })
        0 true "d").order.refundTransactionHash = none ∧
    (finalStep (newBoostOrder (1 / 2) 4 "payAddrD" "payKeyD" 0)
        (some { sender := "payerD", amountInSui := 3 / 10, transactionHash := "t4" })
        0 true "d").order.refundAddress = none := by
  norm_num [finalStep, refund, newBoostOrder, ORDER_EXPIRATION_IN_MS,
    MINIMUM_BALANCE_FOR_GAS]

/-- C6 (amended): an in-window positive transfer strictly below the
required amount (and above the gas floor) is refunded to the original
sender and the order marked EXPIRED, but the refund write touches only
`paymentStatus`: `refundTransactionHash` and `refundAddress` keep their
prior (null) values and `paymentTransactionHash` is untouched — only the
forward path ever populates its field, so at most one of the two pairs is
populated, the refund pair never. -/
theorem refund_insufficient_marks_expired_only (o : BoostOrder)
    (t : IncomingTransactionDetails) (now : ℤ) (hash : String)
    (hp : o.paymentStatus = .PENDING)
    (hwin : now - o.createdAt ≤ ORDER_EXPIRATION_IN_MS)
    (hpos : 0 < t.amountInSui) (hlt : t.amountInSui < o.priceSui)
    (hgas : MINIMUM_BALANCE_FOR_GAS < t.amountInSui) :
    (finalStep o (some t) now true hash).outcome = .RefundedInsufficient ∧
    (finalStep o (some t) now true hash).order.paymentStatus = .EXPIRED ∧
    (finalStep o (some t) now true hash).sweeps = [(o.paymentPrivateKey, t.sender)] ∧
    (finalStep o (some t) now true hash).order.refundTransactionHash =
      o.refundTransactionHash ∧
    (finalStep o (some t) now true hash).order.refundAddress = o.refundAddress ∧
    (finalStep o (some t) now true hash).order.paymentTransactionHash =
      o.paymentTransactionHash := by
  have hnl : ¬ now - o.createdAt > ORDER_EXPIRATION_IN_MS := not_lt.mpr hwin
  have hng : ¬ t.amountInSui ≤ MINIMUM_BALANCE_FOR_GAS := not_le.mpr hgas
  simp [finalStep, refund, hp, hnl, hng, hpos, hlt]

/-- C6 witness: the amended statement at the Scenario B inputs. -/
theorem refund_insufficient_marks_expired_only_witness :
    (finalStep (newBoostOrder (1 / 2) 4 "payAddrE" "payKeyE" 0)
        (some { sender := "payerE", amountInSui := 3 / 10, transactionHash := "t5" })
        0 true "d").order.refundTransactionHash = none ∧
    (finalStep (newBoostOrder (1 / 2) 4 "payAddrE" "payKeyE" 0)
        (some { sender := "payerE", amountInSui := 3 / 10, transactionHash := "t5" })
        0 true "d").order.paymentStatus = .EXPIRED := by
  have h := refund_insufficient_marks_expired_only
    (newBoostOrder (1 / 2) 4 "payAddrE" "payKeyE" 0)
    { sender := "payerE", amountInSui := 3 / 10, transactionHash := "t5" } 0 "d"
    rfl (by norm_num [newBoostOrder, ORDER_EXPIRATION_IN_MS]) (by norm_num)
    (by norm_num [newBoostOrder]) (by norm_num [MINIMUM_BALANCE_FOR_GAS])
  exact ⟨h.2.2.2.1, h.2.1⟩

/-! ## Claim C7 -/

theorem finalStep_rank_mono (o : BoostOrder) (t : Option IncomingTransactionDetails)
    (now : ℤ) (ok : Bool) (hash : String) :
    statusRank o.paymentStatus ≤
      statusRank (finalStep o t now ok hash).order.paymentStatus := by
  by_cases hp : o.paymentStatus = .PENDING
  · rw [hp]
    exact Nat.zero_le _
  · rw [finalStep_nonpending o t now ok hash hp]

/-- C7: across any serialized sequence of `check` invocations the status
rank along PENDING → PROCESSING → {CONFIRMED, EXPIRED} never decreases
(no transition goes backward), and once a terminal state is reached every
further `check` returns the stored order — all its ledger-affecting
fields included — completely untouched and performs no settlement
sweep. -/
theorem check_status_monotone (o : BoostOrder) (inputs : List CheckInput) :
    statusRank o.paymentStatus ≤
      statusRank (runChecks o inputs).1.paymentStatus ∧
    (isTerminal o.paymentStatus = true → runChecks o inputs = (o, 0)) := by
  constructor
  · induction inputs generalizing o with
    | nil => exact le_refl _
    | cons i is ih =>
      calc statusRank o.paymentStatus
          ≤ statusRank (finalStep o i.transaction i.now i.sweepOk
              i.sweepHash).order.paymentStatus :=
            finalStep_rank_mono o i.transaction i.now i.sweepOk i.sweepHash
        _ ≤ statusRank (runChecks o (i :: is)).1.paymentStatus := by
            simpa [runChecks] using
              ih (finalStep o i.transaction i.now i.sweepOk i.sweepHash).order
  · intro ht
    apply runChecks_nonpending
    intro hpe
    rw [hpe] at ht
    simp [isTerminal] at ht

/-- C7 witness: at a concrete CONFIRMED order, a further check leaves
the order untouched and sweeps nothing. -/
theorem check_status_monotone_witness :
    runChecks { newBoostOrder (1 / 2) 4 "payAddrH" "payKeyH" 0 with
        paymentStatus := .CONFIRMED }
      [{ transaction := none, now := 9, sweepOk := true, sweepHash := "d" }] =
      ({ newBoostOrder (1 / 2) 4 "payAddrH" "payKeyH" 0 with
        paymentStatus := .CONFIRMED }, 0) :=
  (check_status_monotone { newBoostOrder (1 / 2) 4 "payAddrH" "payKeyH" 0 with
      paymentStatus := .CONFIRMED }
    [{ transaction := none, now := 9, sweepOk := true, sweepHash := "d" }]).2 rfl

/-! ## Claim C8 -/

/-- C8: `sendSui` has no amount parameter — a successful broadcast moves
the entire current balance of the signing key's address to the
destination, zeroing the source — and the identical operation is invoked
on both settlement paths, signed with the order's stored private key:
destination `MASTER_WALLET` when forwarding, the observed transfer's
sender when refunding; after a successful forward the ledger is exactly
`sendSuiLedger` applied at the master wallet. -/
theorem sweep_moves_entire_balance (addrOfKey : String → String)
    (key recipient : String) (bal : String → ℚ) (o : BoostOrder)
    (t : IncomingTransactionDetails) (now : ℤ) (ok : Bool) (hash : String)
    (hsrc : addrOfKey key ≠ recipient)
    (hp : o.paymentStatus = .PENDING)
    (hwin : now - o.createdAt ≤ ORDER_EXPIRATION_IN_MS)
    (hgas : MINIMUM_BALANCE_FOR_GAS < t.amountInSui) :
    (sendSuiLedger addrOfKey key recipient bal (addrOfKey key) = 0 ∧
     sendSuiLedger addrOfKey key recipient bal recipient =
       bal recipient + bal (addrOfKey key)) ∧
    (o.priceSui ≤ t.amountInSui →
      (finalStep o (some t) now ok hash).sweeps =
        [(o.paymentPrivateKey, MASTER_WALLET)] ∧
      ledgerAfter addrOfKey (finalStep o (some t) now true hash) true bal =
        sendSuiLedger addrOfKey o.paymentPrivateKey MASTER_WALLET bal) ∧
    (0 < t.amountInSui → t.amountInSui < o.priceSui →
      (finalStep o (some t) now ok hash).sweeps =
        [(o.paymentPrivateKey, t.sender)]) := by
  have hnl : ¬ now - o.createdAt > ORDER_EXPIRATION_IN_MS := not_lt.mpr hwin
  have hng : ¬ t.amountInSui ≤ MINIMUM_BALANCE_FOR_GAS := not_le.mpr hgas
  refine ⟨⟨?_, ?_⟩, ?_, ?_⟩
  · simp [sendSuiLedger, hsrc]
  · simp [sendSuiLedger, hsrc]
  · intro hsuf
    have hni : ¬ t.amountInSui < o.priceSui := not_lt.mpr hsuf
    constructor
    · cases ok <;> simp [finalStep, forward, hp, hnl, hni, hsuf]
    · simp [finalStep, forward, hp, hnl, hni, hsuf, ledgerAfter]
  · intro hpos hlt
    cases ok <;> simp [finalStep, refund, hp, hnl, hng, hpos, hlt]

/-- C8 witness: the full-balance sweep and the forward sweep target at
concrete inputs. -/
theorem sweep_moves_entire_balance_witness :
    sendSuiLedger (fun _ => "src") "k" "dst" (fun _ => (5 : ℚ)) "src" = 0 ∧
    (finalStep (newBoostOrder (1 / 2) 4 "payAddrF" "payKeyF" 0)
        (some { sender := "payerF", amountInSui := 1 / 2, transactionHash := "t6" })
        0 true "d").sweeps = [("payKeyF", MASTER_WALLET)] := by
  have h := sweep_moves_entire_balance (fun _ => "src") "k" "dst" (fun _ => (5 : ℚ))
    (newBoostOrder (1 / 2) 4 "payAddrF" "payKeyF" 0)
    { sender := "payerF", amountInSui := 1 / 2, transactionHash := "t6" } 0 true "d"
    (by decide) rfl (by norm_num [newBoostOrder, ORDER_EXPIRATION_IN_MS])
    (by norm_num [MINIMUM_BALANCE_FOR_GAS])
  exact ⟨h.1.1, (h.2.1 (by norm_num [newBoostOrder])).1⟩

/-! ## Claim C9 -/

/-- The data-model invariant of spec §3: boost timestamps are present
exactly on CONFIRMED orders. -/
def timestampsIffConfirmed (o : BoostOrder) : Prop :=
  if o.paymentStatus = .CONFIRMED then
    o.boostStartedAt.isSome ∧ o.boostEndsAt.isSome
  else
    o.boostStartedAt = none ∧ o.boostEndsAt = none

/-- C9: a freshly created order satisfies the timestamps-iff-CONFIRMED
invariant, every `check` run preserves it, and a successful in-window
forward confirms the order with `boostStartedAt = now` and
`boostEndsAt = now + boostDurationHours hours` — i.e. `boostEndsAt`
equals `boostStartedAt` plus the purchased duration. -/
theorem confirmed_iff_boost_timestamps (price : ℚ) (dur : ℕ) (addr key : String)
    (created : ℤ) (o : BoostOrder) (t : Option IncomingTransactionDetails)
    (tr : IncomingTransactionDetails) (now : ℤ) (ok : Bool) (hash : String) :
    timestampsIffConfirmed (newBoostOrder price dur addr key created) ∧
    (timestampsIffConfirmed o →
      timestampsIffConfirmed (finalStep o t now ok hash).order) ∧
    (o.paymentStatus = .PENDING → now - o.createdAt ≤ ORDER_EXPIRATION_IN_MS →
      o.priceSui ≤ tr.amountInSui →
      (finalStep o (some tr) now true hash).order.paymentStatus = .CONFIRMED ∧
      (finalStep o (some tr) now true hash).order.boostStartedAt = some now ∧
      (finalStep o (some tr) now true hash).order.boostEndsAt =
        some (now + (o.boostDurationHours : ℤ) * 60 * 60 * 1000)) := by
  refine ⟨?_, ?_, ?_⟩
  · simp [timestampsIffConfirmed, newBoostOrder]
  · intro hinv
    by_cases hp : o.paymentStatus = .PENDING
    · cases t with
      | none => simpa [finalStep, hp] using hinv
      | some tt =>
        have hnone : o.boostStartedAt = none ∧ o.boostEndsAt = none := by
          simpa [timestampsIffConfirmed, hp] using hinv
        simp only [finalStep, hp, ne_eq, not_true_eq_false, if_false]
        split_ifs <;>
          first
            | (unfold refund
               split_ifs <;> simp [timestampsIffConfirmed, hnone.1, hnone.2])
            | (unfold forward
               split_ifs <;> simp [timestampsIffConfirmed, hnone.1, hnone.2])
            | simp [timestampsIffConfirmed, hnone.1, hnone.2]
    · simpa [finalStep_nonpending o t now ok hash hp] using hinv
  · intro hp hwin hsuf
    have hnl : ¬ now - o.createdAt > ORDER_EXPIRATION_IN_MS := not_lt.mpr hwin
    have hni : ¬ tr.amountInSui < o.priceSui := not_lt.mpr hsuf
    simp [finalStep, forward, hp, hnl, hni, hsuf]

/-- C9 witness: Scenario A at concrete inputs — price 0.5 paid exactly,
in window: CONFIRMED with `boostEndsAt = boostStartedAt + 4 hours`. -/
theorem confirmed_iff_boost_timestamps_witness :
    timestampsIffConfirmed (newBoostOrder (1 / 2) 4 "payAddrG" "payKeyG" 0) ∧
    (finalStep (newBoostOrder (1 / 2) 4 "payAddrG" "payKeyG" 0)
        (some { sender := "payerG", amountInSui := 1 / 2, transactionHash := "t7" })
        0 true "d").order.paymentStatus = .CONFIRMED ∧
    (finalStep (newBoostOrder (1 / 2) 4 "payAddrG" "payKeyG" 0)
        (some { sender := "payerG", amountInSui := 1 / 2, transactionHash := "t7" })
        0 true "d").order.boostStartedAt = some 0 ∧
    (finalStep (newBoostOrder (1 / 2) 4 "payAddrG" "payKeyG" 0)
        (some { sender := "payerG", amountInSui := 1 / 2, transactionHash := "t7" })
        0 true "d").order.boostEndsAt = some 14400000 := by
  have h := confirmed_iff_boost_timestamps (1 / 2) 4 "payAddrG" "payKeyG" 0
    (newBoostOrder (1 / 2) 4 "payAddrG" "payKeyG" 0)
    (some { sender := "payerG", amountInSui := 1 / 2, transactionHash := "t7" })
    { sender := "payerG", amountInSui := 1 / 2, transactionHash := "t7" } 0 true "d"
  have h2 := h.2.2 rfl (by norm_num [newBoostOrder, ORDER_EXPIRATION_IN_MS])
    (by norm_num [newBoostOrder])
  refine ⟨h.1, h2.1, h2.2.1, ?_⟩
  have h3 := h2.2.2
  norm_num [newBoostOrder] at h3
  exact h3

/-! ## Claim C10 -/

/-- C10: for every SDK satisfying the decode-encode contract, loading the
private-key string produced by `createWallet` re-derives exactly the same
Sui address; hence the order persisted by `paymentStep` stores a private
key whose loaded wallet address equals the order's `paymentAddress`, and
a sweep signed with the stored key spends from the order's own payment
address (the sweep zeroes that address's balance). -/
theorem createWallet_loadWallet_roundtrip (sdk : SuiKeypairSDK) (freshSecret : ℕ)
    (price : ℚ) (dur : ℕ) (now : ℤ) (bal : String → ℚ) (dest : String) :
    (loadWallet sdk (createWallet sdk freshSecret).privateKey).address =
      (createWallet sdk freshSecret).address ∧
    (loadWallet sdk
        (paymentStepOrder sdk freshSecret price dur now).paymentPrivateKey).address =
      (paymentStepOrder sdk freshSecret price dur now).paymentAddress ∧
    ((paymentStepOrder sdk freshSecret price dur now).paymentAddress ≠ dest →
      sendSuiLedger (fun s => (loadWallet sdk s).address)
          (paymentStepOrder sdk freshSecret price dur now).paymentPrivateKey dest bal
          ((paymentStepOrder sdk freshSecret price dur now).paymentAddress) = 0) := by
  refine ⟨?_, ?_, ?_⟩
  · simp [loadWallet, createWallet, sdk.decode_encode]
  · simp [loadWallet, createWallet, paymentStepOrder, newBoostOrder, sdk.decode_encode]
  · intro hne
    simp only [paymentStepOrder, newBoostOrder, createWallet] at hne
    simp [loadWallet, createWallet, paymentStepOrder, newBoostOrder, sendSuiLedger,
      sdk.decode_encode, hne]

/-- A concrete executable instance of the SDK primitives: keys are
encoded in unary, decoding is string length. -/
def unaryKeySDK : SuiKeypairSDK where
  encodeKey := fun k => String.mk (List.replicate k 'a')
  decodeKey := fun s => s.length
  derivePublicKey := fun k => k + 1
  publicKeyToSuiAddress := fun k => String.mk (List.replicate k 'b')
  decode_encode := by
    intro k
    show (String.mk (List.replicate k 'a')).length = k
    simp [String.length]

/-- C10 witness: the round trip and the sweep source at a concrete SDK,
key and ledger. -/
theorem createWallet_loadWallet_roundtrip_witness :
    (loadWallet unaryKeySDK (createWallet unaryKeySDK 3).privateKey).address =
      (createWallet unaryKeySDK 3).address ∧
    sendSuiLedger (fun s => (loadWallet unaryKeySDK s).address)
        (paymentStepOrder unaryKeySDK 3 (1 / 2) 4 0).paymentPrivateKey "dst"
        (fun _ => (7 : ℚ))
        ((paymentStepOrder unaryKeySDK 3 (1 / 2) 4 0).paymentAddress) = 0 := by
  have h := createWallet_loadWallet_roundtrip unaryKeySDK 3 (1 / 2) 4 0
    (fun _ => (7 : ℚ)) "dst"
  exact ⟨h.1, h.2.2 (by decide)⟩

end SuiTgWhaleBot
